import Mathlib

/-!
Shallow embedding of `drivers/iio/common/nvs/nvs_light.c` (NVIDIA NVS ALS
common module) and proofs about its sample-processing core.

Machine integers are modelled as `Nat`/`Int` with explicit reductions
modulo `2^32` / `2^64` at the points where the C code truncates:
`hw`, the thresholds and the configuration values are `unsigned int`
(u32) fields, timestamps are `s64`, and `do_div` is the kernel's
unsigned 64-bit by 32-bit division.
-/

set_option maxHeartbeats 1000000

namespace Nvs

/-- Number of values of a 32-bit machine word (`2 ^ 32`). -/
def U32 : Nat := 4294967296

/-- Number of values of a 64-bit machine word (`2 ^ 64`). -/
def U64 : Nat := 18446744073709551616

/-- Modelled from the spec: `NVS_SCALE_SIGNIFICANCE` is defined in the
missing header `include/linux/nvs.h`; the spec describes it as the "large
fixed-point scaling constant" shared by all integer+fractional
configuration pairs.  Its concrete value does not decide any claim. -/
def NVS_SCALE_SIGNIFICANCE : Nat := 1000000

/-- Reinterpret an integer as a signed `w`-bit value (two's complement
wrap-around), e.g. the result of a C `s64` addition or subtraction. -/
def swrap (w : Nat) (i : Int) : Int :=
  (i + 2 ^ (w - 1)) % (2 ^ w : Int) - 2 ^ (w - 1)

/-- The unsigned 64-bit pattern of a signed 64-bit value (the `u64` view
taken by `do_div` of its dividend). -/
def toU64 (i : Int) : Nat := (i % (18446744073709551616 : Int)).toNat

/-- Truncation of an integer to `unsigned int` (a C cast to u32). -/
def u32of (i : Int) : Nat := (i % (4294967296 : Int)).toNat

/-- Reinterpret an unsigned 64-bit pattern as `s64`. -/
def toS64 (n : Nat) : Int :=
  if n % U64 < 9223372036854775808 then ((n % U64 : Nat) : Int)
  else ((n % U64 : Nat) : Int) - 18446744073709551616

/-- Return value `-1`: poll for the next sample using `poll_delay_ms`. -/
def RET_POLL_NEXT : Int := -1

/-- Return value `0`: nothing to do. -/
def RET_NO_CHANGE : Int := 0

/-- Return value `1`: new HW thresholds must be programmed. -/
def RET_HW_UPDATE : Int := 1

/-- An integer + fractional fixed-point pair (`struct nvs_float`). -/
structure NvsFloat where
  ival : Nat
  fval : Nat

/-- One entry of the dynamic-resolution (gain-ranging) table
(`struct nvs_light_dynamic`). -/
structure NldEntry where
  resolution : NvsFloat
  max_range : NvsFloat
  milliamp : NvsFloat
  delay_min_ms : Nat

/-- The static sensor configuration (the part of `struct sensor_cfg`
read by this module). -/
structure Cfg where
  resolution : NvsFloat
  max_range : NvsFloat
  milliamp : NvsFloat
  scale : NvsFloat
  uncal_lo : Int
  uncal_hi : Int
  cal_lo : Int
  cal_hi : Int
  thresh_lo : Nat
  thresh_hi : Nat
  report_n : Nat
  delay_us_min : Nat

/-- The shared driver/common-module state (`struct nvs_light`).  The
dynamic-resolution table is an optional unchecked array, modelled as a
total index function.  The report handler is modelled by returning the
reported `(lux, timestamp)` pair from `nvs_light_read` instead of
invoking a callback. -/
structure NvsLight where
  cfg : Cfg
  hw : Nat
  hw_mask : Nat
  hw_thresh_lo : Nat
  hw_thresh_hi : Nat
  hw_limit_lo : Bool
  hw_limit_hi : Bool
  thresh_valid_lo : Bool
  thresh_valid_hi : Bool
  thresholds_valid : Bool
  nld_i_change : Bool
  calibration_en : Bool
  lux : Nat
  timestamp : Int
  timestamp_report : Int
  delay_us : Nat
  poll_delay_ms : Nat
  report : Nat
  nld_i : Nat
  nld_i_lo : Nat
  nld_i_hi : Nat
  nld_tbl : Option (Nat → NldEntry)

/-- Result of one `nvs_light_read` call: the updated state, the returned
disposition, and the `(lux, timestamp)` pair passed to the report
handler (`none` when the handler was not invoked). -/
structure ReadResult where
  st : NvsLight
  ret : Int
  reported : Option (Nat × Int)

/-- Source lines 111-128: `nvs_light_interpolate`.
`y2 = ((x2 - x1)(y3 - y1)/(x3 - x1)) + y1` with `s64` intermediates,
`do_div` (unsigned 64/32 division) and a final cast to `unsigned int`.
The `y3 - y1` subtraction is C `int` arithmetic, `x2 - x1` and the
product are `s64`. -/
def nvs_light_interpolate (x1 : Int) (x2 : Int) (x3 : Int) (y1 y3 : Int) : Nat :=
  let divisor : Int := x3 - x1
  if divisor = 0 then u32of x2
  else
    let dividend : Int := swrap 64 (swrap 64 (x2 - x1) * swrap 32 (y3 - y1))
    let q : Nat := toU64 dividend / u32of divisor
    let r : Int := swrap 64 (toS64 q + y1)
    if r < 0 then 0 else u32of r

/-- Source lines 130-142: `nvs_light_nld`.  Applies dynamic-resolution
table entry `nld_i` as the active configuration and marks the index
change.  The C function returns `RET_POLL_NEXT`; that constant is used
at the call sites.  `delay_min_ms * 1000` is u32 arithmetic. -/
def nvs_light_nld (nl : NvsLight) (tbl : Nat → NldEntry) (nld_i : Nat) : NvsLight :=
  { nl with
    nld_i := nld_i
    nld_i_change := true
    cfg := { nl.cfg with
      resolution := ⟨(tbl nld_i).resolution.ival, (tbl nld_i).resolution.fval⟩
      max_range := ⟨(tbl nld_i).max_range.ival, (tbl nld_i).max_range.fval⟩
      milliamp := ⟨(tbl nld_i).milliamp.ival, (tbl nld_i).milliamp.fval⟩
      delay_us_min := ((tbl nld_i).delay_min_ms * 1000) % U32 } }

/-- Source lines 172-174: in calibration mode every sample reports, so
the report counter is topped up before the rate-limit check. -/
def calOverride (nl : NvsLight) : NvsLight :=
  if nl.calibration_en = true then { nl with report := nl.cfg.report_n } else nl

/-- Source lines 175-189: the report rate limit.  Returns
`(report_delay_min, poll_delay)`.  `delay_us * 1000` is u32 arithmetic
widened to `s64`; the timestamp subtractions are `s64`; `do_div` divides
the u64 view by 1000 and the quotient is truncated to u32 on assignment
to `poll_delay`. -/
def rateLimit (nl : NvsLight) : Bool × Nat :=
  if nl.report < nl.cfg.report_n then
    let timestamp_diff : Int := swrap 64 (nl.timestamp - nl.timestamp_report)
    let delay : Int := ((nl.delay_us * 1000) % U32 : Nat)
    if timestamp_diff < delay then
      (false, toU64 (swrap 64 (delay - timestamp_diff)) / 1000 % U32)
    else (true, 0)
  else (true, 0)

/-- Source lines 191-198: the low-threshold validity flag and the local
`thresh_lo` delta (zeroed when invalid). -/
def threshValidLo (nl : NvsLight) : NvsLight × Nat :=
  if nl.cfg.thresh_lo < nl.hw_mask then ({ nl with thresh_valid_lo := true }, nl.cfg.thresh_lo)
  else ({ nl with thresh_valid_lo := false }, 0)

/-- Source lines 192 and 199-204: the high-threshold validity flag and
the local `thresh_hi` delta.  Line 192 of the source reads
`thresh_hi = nl->cfg->thresh_lo;` (sic), so both the flag and the delta
are derived from the configured low threshold. -/
def threshValidHi (nl : NvsLight) : NvsLight × Nat :=
  if nl.cfg.thresh_lo < nl.hw_mask then ({ nl with thresh_valid_hi := true }, nl.cfg.thresh_lo)
  else ({ nl with thresh_valid_hi := false }, 0)

/-- Source lines 205-208: both flags must hold for `thresholds_valid`. -/
def threshValidBoth (nl : NvsLight) : NvsLight :=
  if nl.thresh_valid_lo = true ∧ nl.thresh_valid_hi = true then
    { nl with thresholds_valid := true }
  else { nl with thresholds_valid := false }

/-- Source lines 209-217: the saturation (limit) flags, computed from
the local (already zero-defaulted) threshold deltas. -/
def limitFlags (nl : NvsLight) (thresh_lo thresh_hi : Nat) : NvsLight :=
  let a := if nl.hw < thresh_lo ∨ nl.hw = 0 then { nl with hw_limit_lo := true }
           else { nl with hw_limit_lo := false }
  if a.hw = a.hw_mask ∨ a.hw > a.hw_mask - thresh_hi then { a with hw_limit_hi := true }
  else { a with hw_limit_hi := false }

/-- Source lines 218-235: the report trigger.  A resolution-index change
or a raw value outside the programmed window (or invalid thresholds)
tops the report counter back up to `report_n`. -/
def reportTrigger (nl : NvsLight) : NvsLight :=
  if nl.nld_i_change = true then { nl with report := nl.cfg.report_n }
  else if nl.thresholds_valid = true then
    (if nl.hw < nl.hw_thresh_lo then { nl with report := nl.cfg.report_n }
     else if nl.hw > nl.hw_thresh_hi then { nl with report := nl.cfg.report_n }
     else nl)
  else { nl with report := nl.cfg.report_n }

/-- Source lines 241-258: the lux computation
`lux = HW * (resolution * NVS_SCALE_SIGNIFICANCE) / scale`.
`hw * resolution.fval` and `hw * resolution.ival` are u32 products cast
to u64; `do_div(calc_f, scale.fval)` is guarded by `scale.fval != 0`,
while `NVS_SCALE_SIGNIFICANCE / scale.fval` is not guarded (the Lean
total `Nat` division returns 0 there; the separate definedness
predicate `nvs_light_read_divs_defined` records the C-level
obligation).  The u64 sum is reinterpreted as `s64` and interpolated. -/
def luxCalc (nl : NvsLight) : Nat :=
  let calc_f : Nat :=
    if nl.cfg.resolution.fval ≠ 0 then
      (if nl.cfg.scale.fval ≠ 0 then ((nl.hw * nl.cfg.resolution.fval) % U32) / nl.cfg.scale.fval
       else (nl.hw * nl.cfg.resolution.fval) % U32)
    else 0
  let calc_i : Nat :=
    if nl.cfg.resolution.ival ≠ 0 then
      ((NVS_SCALE_SIGNIFICANCE / nl.cfg.scale.fval) * ((nl.hw * nl.cfg.resolution.ival) % U32)) % U64
    else 0
  nvs_light_interpolate nl.cfg.uncal_lo (toS64 (calc_i + calc_f)) nl.cfg.uncal_hi
    nl.cfg.cal_lo nl.cfg.cal_hi

/-- Source lines 261-278: recompute the HW thresholds around the current
raw value when the burst just finished.  The low computation is `s64`
(`hw - thresh_lo`, clamped at 0); the high computation `hw + thresh_hi`
is u32 arithmetic widened to `s64` and clamped at `hw_mask`. -/
def threshCompute (nl : NvsLight) (thresh_lo thresh_hi : Nat) : NvsLight :=
  let a := if (nl.hw : Int) - (thresh_lo : Int) < 0 then { nl with hw_thresh_lo := 0 }
           else { nl with hw_thresh_lo := ((nl.hw : Int) - (thresh_lo : Int)).toNat }
  if (nl.hw + thresh_hi) % U32 > a.hw_mask then { a with hw_thresh_hi := a.hw_mask }
  else { a with hw_thresh_hi := (nl.hw + thresh_hi) % U32 }

/-- Source lines 236-279: the reporting block.  When the counter is
nonzero and the rate-limit gate passed, decrement the counter, record
the report time, compute and report the lux, and if the burst just
ended with valid thresholds compute new HW thresholds and return
`RET_HW_UPDATE`. -/
def reportPhase (nl : NvsLight) (report_delay_min : Bool) (thresh_lo thresh_hi : Nat) :
    NvsLight × Int × Option (Nat × Int) :=
  if nl.report ≠ 0 ∧ report_delay_min = true then
    let a := { nl with report := nl.report - 1, timestamp_report := nl.timestamp }
    let b := { a with lux := luxCalc a }
    if b.thresholds_valid = true ∧ b.report = 0 then
      (threshCompute b thresh_lo thresh_hi, RET_HW_UPDATE, some (b.lux, b.timestamp_report))
    else (b, RET_NO_CHANGE, some (b.lux, b.timestamp_report))
  else (nl, RET_NO_CHANGE, none)

/-- Source lines 280-290: dynamic-resolution adaptation.  Clears the
index-change mark, then moves the index one step up on high saturation
(preferred) or one step down on low saturation, within the configured
index limits, returning `RET_POLL_NEXT` on a change. -/
def dynRes (nl : NvsLight) (ret : Int) : NvsLight × Int :=
  let a := { nl with nld_i_change := false }
  match a.nld_tbl with
  | some tbl =>
    if a.hw_limit_hi = true ∧ a.nld_i < a.nld_i_hi then
      (nvs_light_nld a tbl (a.nld_i + 1), RET_POLL_NEXT)
    else if a.hw_limit_lo = true ∧ a.nld_i > a.nld_i_lo then
      (nvs_light_nld a tbl (a.nld_i - 1), RET_POLL_NEXT)
    else (a, ret)
  | none => (a, ret)

/-- Source lines 291-300: the poll-delay computation.  On an index
change the table entry's minimum delay is used (the C code indexes
`nld_tbl` unconditionally there; the `none` branch is unreachable since
only `nvs_light_nld`, called with a table present, sets the mark). -/
def pollTime (nl : NvsLight) (report_delay_min : Bool) (poll_delay : Nat) : NvsLight :=
  if nl.nld_i_change = true then
    match nl.nld_tbl with
    | some tbl => { nl with poll_delay_ms := (tbl nl.nld_i).delay_min_ms }
    | none => nl
  else
    let a := if report_delay_min = true then nl.delay_us else poll_delay
    let b := if a < nl.cfg.delay_us_min ∨ nl.calibration_en = true then nl.cfg.delay_us_min else a
    { nl with poll_delay_ms := b / 1000 }

/-- Source lines 159-304: `nvs_light_read`, the sample-processing core,
as the exact sequential composition of its phases. -/
def nvs_light_read (nl : NvsLight) : ReadResult :=
  let a := calOverride nl
  let rl := rateLimit a
  let p1 := threshValidLo a
  let p2 := threshValidHi p1.1
  let b := threshValidBoth p2.1
  let c := limitFlags b p1.2 p2.2
  let d := reportTrigger c
  let rp := reportPhase d rl.1 p1.2 p2.2
  let dr := dynRes rp.1 rp.2.1
  let e := pollTime dr.1 rl.1 rl.2
  let ret := if e.report ≠ 0 ∨ e.calibration_en = true then RET_POLL_NEXT else dr.2
  ⟨e, ret, rp.2.2⟩

/-- Source lines 314-331: `nvs_light_enable`.  Normalizes `report_n`,
resets the report counter and report time, sets the disabled-sentinel
thresholds (`hw_thresh_lo = -1` on a u32 field is all-ones), seeds the
highest dynamic-resolution index or the configured minimum poll delay,
and derives `calibration_en` from the `scale == (1, 0)` sentinel. -/
def nvs_light_enable (nl : NvsLight) : NvsLight :=
  let a := if nl.cfg.report_n = 0 then { nl with cfg := { nl.cfg with report_n := 1 } } else nl
  let b := { a with
    report := a.cfg.report_n
    timestamp_report := 0
    hw_thresh_hi := 0
    hw_thresh_lo := 4294967295 }
  let c := match b.nld_tbl with
    | some tbl => nvs_light_nld b tbl b.nld_i_hi
    | none => { b with poll_delay_ms := b.cfg.delay_us_min / 1000 }
  if c.cfg.scale.ival = 1 ∧ c.cfg.scale.fval = 0 then { c with calibration_en := true }
  else { c with calibration_en := false }

/-- The caller's per-sample writes into the shared state: the raw HW
value and its timestamp (spec section 4.4, source lines 19-20). -/
def sample (nl : NvsLight) (hw : Nat) (ts : Int) : NvsLight :=
  { nl with hw := hw, timestamp := ts }

/-- Definedness of every division `nvs_light_read` executes, following
the source control flow.  The two `do_div` by 1000 and the `/ 1000`
poll-delay divisions have the constant divisor 1000; `do_div(calc_f,
scale.fval)` is guarded by `scale.fval != 0`; so the conditions left
are those of the report path (taken exactly when the handler is
invoked): the unguarded `NVS_SCALE_SIGNIFICANCE / scale.fval` at source
line 250 (executed when `resolution.ival != 0`) and the `do_div` inside
`nvs_light_interpolate` (executed when `uncal_hi - uncal_lo != 0`,
whose u32-truncated divisor must be nonzero). -/
def nvs_light_read_divs_defined (nl : NvsLight) : Prop :=
  (nvs_light_read nl).reported ≠ none →
    (nl.cfg.resolution.ival ≠ 0 → nl.cfg.scale.fval ≠ 0) ∧
    (nl.cfg.uncal_hi - nl.cfg.uncal_lo = 0 ∨ u32of (nl.cfg.uncal_hi - nl.cfg.uncal_lo) ≠ 0)

instance (nl : NvsLight) : Decidable (nvs_light_read_divs_defined nl) := by
  unfold nvs_light_read_divs_defined
  infer_instance

/-- A concrete base configuration used by the concrete test-vector
theorems: fractional resolution 0.001, fractional scale 0.5 (not the
calibration sentinel), thresholds 5/7, a 3-sample report burst, and a
1 ms minimum poll delay. -/
def baseCfg : Cfg :=
  { resolution := ⟨0, 1000⟩, max_range := ⟨0, 0⟩, milliamp := ⟨0, 0⟩
    scale := ⟨0, 500000⟩
    uncal_lo := 0, uncal_hi := 0, cal_lo := 0, cal_hi := 0
    thresh_lo := 5, thresh_hi := 7, report_n := 3, delay_us_min := 1000 }

/-- A concrete base state: 10-bit-style sensor (`hw_mask` = 1000 for
readability), 10 ms requested period, no dynamic-resolution table. -/
def baseSt : NvsLight :=
  { cfg := baseCfg, hw := 0, hw_mask := 1000
    hw_thresh_lo := 0, hw_thresh_hi := 0
    hw_limit_lo := false, hw_limit_hi := false
    thresh_valid_lo := false, thresh_valid_hi := false, thresholds_valid := false
    nld_i_change := false, calibration_en := false, lux := 0
    timestamp := 0, timestamp_report := 0, delay_us := 10000
    poll_delay_ms := 0, report := 0, nld_i := 0, nld_i_lo := 0, nld_i_hi := 0
    nld_tbl := none }

/-- Input refuting C1: the configured low threshold equals `hw_mask`
(invalid) while the configured high threshold is 1 (valid per the
claim). -/
def c1st : NvsLight :=
  { baseSt with cfg := { baseCfg with thresh_lo := 1000, thresh_hi := 1 }, hw := 50 }

/-- Input refuting C2: valid thresholds (5 and 7, both below
`hw_mask` = 1000), a programmed window `[45, 55]` containing the raw
value 50, one report left in the burst, and the rate-limit gate
satisfied (10 ms elapsed = the requested period). -/
def c2st : NvsLight :=
  { baseSt with
    report := 1
    hw := 50
    hw_thresh_lo := 45
    hw_thresh_hi := 55
    timestamp := 10000000 }

/-- Input refuting C3: calibration mode (`scale == (1, 0)`, so
`nvs_light_enable` sets `calibration_en`) with an integer resolution
(`resolution.ival = 1`), first sample after enable. -/
def c3st : NvsLight :=
  sample (nvs_light_enable
    { baseSt with cfg := { baseCfg with scale := ⟨1, 0⟩, resolution := ⟨1, 0⟩ } }) 50 0

/-- Input refuting C5's poll-delay bound: a partially consumed burst,
5 ms elapsed out of the requested 10 ms period, but a configured
minimum delay (50 ms) larger than the requested period. -/
def c5st : NvsLight :=
  { baseSt with
    cfg := { baseCfg with delay_us_min := 50000 }
    report := 1
    hw := 50
    timestamp := 5000000 }

/-- The post-enable state of the C4 scenario (`report_n` = 3, valid
thresholds, no resolution table). -/
def c4s0 : NvsLight := nvs_light_enable baseSt

/-- C4 scenario, call 1: constant raw value 50 (mid-range, saturating
neither limit), calls spaced 10 ms apart so the rate-limit gate is
satisfied every time. -/
def c4s1 : ReadResult := nvs_light_read (sample c4s0 50 0)

/-- C4 scenario, call 2. -/
def c4s2 : ReadResult := nvs_light_read (sample c4s1.st 50 10000000)

/-- C4 scenario, call 3. -/
def c4s3 : ReadResult := nvs_light_read (sample c4s2.st 50 20000000)

/-- C4 scenario, call 4. -/
def c4s4 : ReadResult := nvs_light_read (sample c4s3.st 50 30000000)

/-- Wiring helper: the state after the calibration override. -/
def readA (nl : NvsLight) : NvsLight := calOverride nl

/-- Wiring helper: the rate-limit result. -/
def readRL (nl : NvsLight) : Bool × Nat := rateLimit (readA nl)

/-- Wiring helper: the low-threshold flag step. -/
def readTL (nl : NvsLight) : NvsLight × Nat := threshValidLo (readA nl)

/-- Wiring helper: the high-threshold flag step. -/
def readTH (nl : NvsLight) : NvsLight × Nat := threshValidHi (readTL nl).1

/-- Wiring helper: the combined-validity step. -/
def readB (nl : NvsLight) : NvsLight := threshValidBoth (readTH nl).1

/-- Wiring helper: the limit-flag step. -/
def readC (nl : NvsLight) : NvsLight := limitFlags (readB nl) (readTL nl).2 (readTH nl).2

/-- Wiring helper: the report-trigger step. -/
def readD (nl : NvsLight) : NvsLight := reportTrigger (readC nl)

/-- Wiring helper: the reporting block. -/
def readRP (nl : NvsLight) : NvsLight × Int × Option (Nat × Int) :=
  reportPhase (readD nl) (readRL nl).1 (readTL nl).2 (readTH nl).2

/-- Wiring helper: the dynamic-resolution step. -/
def readDR (nl : NvsLight) : NvsLight × Int := dynRes (readRP nl).1 (readRP nl).2.1

/-- Wiring helper: the poll-time step. -/
def readE (nl : NvsLight) : NvsLight := pollTime (readDR nl).1 (readRL nl).1 (readRL nl).2

/-- Overwrite only the configured high threshold. -/
def setTh (nl : NvsLight) (v : Nat) : NvsLight :=
  { nl with cfg := { nl.cfg with thresh_hi := v } }

/-- Concrete input for the C6 witness: a calibration-enabled state with
no resolution table. -/
def c6wSt : NvsLight :=
  { baseSt with cfg := { baseCfg with scale := ⟨1, 0⟩ }, calibration_en := true, hw := 50 }

/-- Concrete dynamic-resolution table for the C7 witness. -/
def c7wTbl : Nat → NldEntry := fun _ => ⟨⟨1, 0⟩, ⟨0, 0⟩, ⟨0, 0⟩, 100⟩

/-- Concrete input for the C7 witness: index 1 within limits [0, 2],
raw value saturated at `hw_mask`. -/
def c7wSt : NvsLight :=
  { baseSt with nld_tbl := some c7wTbl, nld_i := 1, nld_i_hi := 2, hw := 1000 }

/-- Start state of the amended C4 scenario: `report = report_n = 3`,
valid thresholds, and — unlike the post-enable state — a programmed
threshold window `[45, 55]` that contains the constant raw value 50. -/
def c4aSt : NvsLight :=
  { baseSt with report := 3, hw_thresh_lo := 45, hw_thresh_hi := 55 }

/-- The recurring state shape of the amended C4 scenario after a
reporting call: `r` reports left, both timestamps at the last report
time, flags computed, window `[45, 55]`. -/
def c4F (r : Nat) (tr : Int) : NvsLight :=
  { baseSt with
    hw := 50
    hw_thresh_lo := 45
    hw_thresh_hi := 55
    thresh_valid_lo := true
    thresh_valid_hi := true
    thresholds_valid := true
    lux := 0
    timestamp := tr
    timestamp_report := tr
    poll_delay_ms := 10
    report := r }

/-- Concrete input for the C5 witness: the counterexample scenario with
the minimum delay kept below the requested period. -/
def c5wSt : NvsLight :=
  { baseSt with report := 1, hw := 50, timestamp := 5000000 }

lemma threshValidLo_fst (nl : NvsLight) :
    (threshValidLo nl).1 = { nl with thresh_valid_lo := decide (nl.cfg.thresh_lo < nl.hw_mask) } := by
  by_cases h : nl.cfg.thresh_lo < nl.hw_mask <;> simp [threshValidLo, h]

lemma threshValidLo_snd (nl : NvsLight) :
    (threshValidLo nl).2 = if nl.cfg.thresh_lo < nl.hw_mask then nl.cfg.thresh_lo else 0 := by
  by_cases h : nl.cfg.thresh_lo < nl.hw_mask <;> simp [threshValidLo, h]

lemma threshValidHi_fst (nl : NvsLight) :
    (threshValidHi nl).1 = { nl with thresh_valid_hi := decide (nl.cfg.thresh_lo < nl.hw_mask) } := by
  by_cases h : nl.cfg.thresh_lo < nl.hw_mask <;> simp [threshValidHi, h]

lemma threshValidHi_snd (nl : NvsLight) :
    (threshValidHi nl).2 = if nl.cfg.thresh_lo < nl.hw_mask then nl.cfg.thresh_lo else 0 := by
  by_cases h : nl.cfg.thresh_lo < nl.hw_mask <;> simp [threshValidHi, h]

lemma threshValidBoth_eq (nl : NvsLight) :
    threshValidBoth nl = { nl with thresholds_valid := nl.thresh_valid_lo && nl.thresh_valid_hi } := by
  rcases nl with ⟨cfg, hw, hwm, htl, hth, hll, hlh, tvl, tvh, tv, nic, cal, lux, ts, tsr, du, pdm,
    rep, ni, nil, nih, tbl⟩
  cases tvl <;> cases tvh <;> simp [threshValidBoth]

lemma limitFlags_eq (nl : NvsLight) (tl th : Nat) :
    limitFlags nl tl th = { nl with
      hw_limit_lo := decide (nl.hw < tl ∨ nl.hw = 0)
      hw_limit_hi := decide (nl.hw = nl.hw_mask ∨ nl.hw > nl.hw_mask - th) } := by
  by_cases h1 : nl.hw < tl ∨ nl.hw = 0 <;>
    by_cases h2 : nl.hw = nl.hw_mask ∨ nl.hw > nl.hw_mask - th <;>
      simp [limitFlags, h1, h2]

lemma reportTrigger_eq (nl : NvsLight) :
    reportTrigger nl = { nl with report :=
      if nl.nld_i_change = true then nl.cfg.report_n
      else if nl.thresholds_valid = true then
        (if nl.hw < nl.hw_thresh_lo then nl.cfg.report_n
         else if nl.hw > nl.hw_thresh_hi then nl.cfg.report_n
         else nl.report)
      else nl.cfg.report_n } := by
  rcases nl with ⟨cfg, hw, hwm, htl, hth, hll, hlh, tvl, tvh, tv, nic, cal, lux, ts, tsr, du, pdm,
    rep, ni, nil, nih, tbl⟩
  cases nic <;> cases tv <;>
    by_cases h1 : hw < htl <;> by_cases h2 : hw > hth <;> simp [reportTrigger, h1, h2]

lemma calOverride_eq (nl : NvsLight) :
    calOverride nl = { nl with report := if nl.calibration_en = true then nl.cfg.report_n else nl.report } := by
  rcases nl with ⟨cfg, hw, hwm, htl, hth, hll, hlh, tvl, tvh, tv, nic, cal, lux, ts, tsr, du, pdm,
    rep, ni, nil, nih, tbl⟩
  cases cal <;> simp [calOverride]

lemma swrap64_eq (i : Int) (h1 : -9223372036854775808 ≤ i)
    (h2 : i < 9223372036854775808) : swrap 64 i = i := by
  unfold swrap
  norm_num
  omega

lemma toU64_eq (i : Int) (h1 : 0 ≤ i) (h2 : i < 18446744073709551616) :
    toU64 i = i.toNat := by
  unfold toU64
  rw [Int.emod_eq_of_lt h1 h2]

lemma reportPhase_none (nl : NvsLight) (rdm : Bool) (tl th : Nat)
    (h : ¬(nl.report ≠ 0 ∧ rdm = true)) :
    reportPhase nl rdm tl th = (nl, RET_NO_CHANGE, none) := by
  simp only [reportPhase, if_neg h]

lemma reportPhase_reported_some (nl : NvsLight) (rdm : Bool) (tl th : Nat)
    (h1 : nl.report ≠ 0) (h2 : rdm = true) :
    (reportPhase nl rdm tl th).2.2 ≠ none := by
  simp only [reportPhase, if_pos (And.intro h1 h2)]
  split <;> simp

lemma reportPhase_fst_report (nl : NvsLight) (rdm : Bool) (tl th : Nat) :
    (reportPhase nl rdm tl th).1.report =
      if nl.report ≠ 0 ∧ rdm = true then nl.report - 1 else nl.report := by
  simp only [reportPhase, threshCompute]
  repeat' split
  all_goals rfl

lemma reportPhase_fst_calibration_en (nl : NvsLight) (rdm : Bool) (tl th : Nat) :
    (reportPhase nl rdm tl th).1.calibration_en = nl.calibration_en := by
  simp only [reportPhase, threshCompute]
  repeat' split
  all_goals rfl

lemma reportPhase_fst_cfg (nl : NvsLight) (rdm : Bool) (tl th : Nat) :
    (reportPhase nl rdm tl th).1.cfg = nl.cfg := by
  simp only [reportPhase, threshCompute]
  repeat' split
  all_goals rfl

lemma reportPhase_fst_nld_i (nl : NvsLight) (rdm : Bool) (tl th : Nat) :
    (reportPhase nl rdm tl th).1.nld_i = nl.nld_i := by
  simp only [reportPhase, threshCompute]
  repeat' split
  all_goals rfl

lemma reportPhase_fst_nld_tbl (nl : NvsLight) (rdm : Bool) (tl th : Nat) :
    (reportPhase nl rdm tl th).1.nld_tbl = nl.nld_tbl := by
  simp only [reportPhase, threshCompute]
  repeat' split
  all_goals rfl

lemma reportPhase_fst_nld_i_lo (nl : NvsLight) (rdm : Bool) (tl th : Nat) :
    (reportPhase nl rdm tl th).1.nld_i_lo = nl.nld_i_lo := by
  simp only [reportPhase, threshCompute]
  repeat' split
  all_goals rfl

lemma reportPhase_fst_nld_i_hi (nl : NvsLight) (rdm : Bool) (tl th : Nat) :
    (reportPhase nl rdm tl th).1.nld_i_hi = nl.nld_i_hi := by
  simp only [reportPhase, threshCompute]
  repeat' split
  all_goals rfl

lemma reportPhase_fst_nld_i_change (nl : NvsLight) (rdm : Bool) (tl th : Nat) :
    (reportPhase nl rdm tl th).1.nld_i_change = nl.nld_i_change := by
  simp only [reportPhase, threshCompute]
  repeat' split
  all_goals rfl

lemma reportPhase_fst_hw_limit_lo (nl : NvsLight) (rdm : Bool) (tl th : Nat) :
    (reportPhase nl rdm tl th).1.hw_limit_lo = nl.hw_limit_lo := by
  simp only [reportPhase, threshCompute]
  repeat' split
  all_goals rfl

lemma reportPhase_fst_hw_limit_hi (nl : NvsLight) (rdm : Bool) (tl th : Nat) :
    (reportPhase nl rdm tl th).1.hw_limit_hi = nl.hw_limit_hi := by
  simp only [reportPhase, threshCompute]
  repeat' split
  all_goals rfl

lemma dynRes_none (nl : NvsLight) (ret : Int) (h : nl.nld_tbl = none) :
    dynRes nl ret = ({ nl with nld_i_change := false }, ret) := by
  simp only [dynRes, h]

lemma dynRes_fst_calibration_en (nl : NvsLight) (ret : Int) :
    (dynRes nl ret).1.calibration_en = nl.calibration_en := by
  rcases nl with ⟨cfg, hw, hwm, htl, hth, hll, hlh, tvl, tvh, tv, nic, cal, lux, ts, tsr, du, pdm,
    rep, ni, nil, nih, tbl⟩
  cases tbl
  all_goals simp only [dynRes, nvs_light_nld]
  all_goals repeat' split
  all_goals rfl

lemma dynRes_fst_report_n (nl : NvsLight) (ret : Int) :
    (dynRes nl ret).1.cfg.report_n = nl.cfg.report_n := by
  rcases nl with ⟨cfg, hw, hwm, htl, hth, hll, hlh, tvl, tvh, tv, nic, cal, lux, ts, tsr, du, pdm,
    rep, ni, nil, nih, tbl⟩
  cases tbl
  all_goals simp only [dynRes, nvs_light_nld]
  all_goals repeat' split
  all_goals rfl

lemma pollTime_no_change (nl : NvsLight) (rdm : Bool) (pd : Nat)
    (h : nl.nld_i_change = false) :
    pollTime nl rdm pd =
      { nl with poll_delay_ms :=
        (if (if rdm = true then nl.delay_us else pd) < nl.cfg.delay_us_min ∨
            nl.calibration_en = true then nl.cfg.delay_us_min
         else (if rdm = true then nl.delay_us else pd)) / 1000 } := by
  simp only [pollTime, h]
  norm_num

lemma pollTime_no_change_false (nl : NvsLight) (pd : Nat) (h : nl.nld_i_change = false) :
    pollTime nl false pd =
      { nl with poll_delay_ms :=
        (if pd < nl.cfg.delay_us_min ∨ nl.calibration_en = true then nl.cfg.delay_us_min
         else pd) / 1000 } := by
  simp only [pollTime, h]
  norm_num

lemma pollTime_hw_limit_hi (nl : NvsLight) (rdm : Bool) (pd : Nat) :
    (pollTime nl rdm pd).hw_limit_hi = nl.hw_limit_hi := by
  rcases nl with ⟨cfg, hw, hwm, htl, hth, hll, hlh, tvl, tvh, tv, nic, cal, lux, ts, tsr, du, pdm,
    rep, ni, nil, nih, tbl⟩
  cases tbl <;> simp only [pollTime] <;> repeat' split
  all_goals rfl

lemma pollTime_hw_limit_lo (nl : NvsLight) (rdm : Bool) (pd : Nat) :
    (pollTime nl rdm pd).hw_limit_lo = nl.hw_limit_lo := by
  rcases nl with ⟨cfg, hw, hwm, htl, hth, hll, hlh, tvl, tvh, tv, nic, cal, lux, ts, tsr, du, pdm,
    rep, ni, nil, nih, tbl⟩
  cases tbl <;> simp only [pollTime] <;> repeat' split
  all_goals rfl

lemma pollTime_nld_i (nl : NvsLight) (rdm : Bool) (pd : Nat) :
    (pollTime nl rdm pd).nld_i = nl.nld_i := by
  rcases nl with ⟨cfg, hw, hwm, htl, hth, hll, hlh, tvl, tvh, tv, nic, cal, lux, ts, tsr, du, pdm,
    rep, ni, nil, nih, tbl⟩
  cases tbl <;> simp only [pollTime] <;> repeat' split
  all_goals rfl

lemma pollTime_cfg (nl : NvsLight) (rdm : Bool) (pd : Nat) :
    (pollTime nl rdm pd).cfg = nl.cfg := by
  rcases nl with ⟨cfg, hw, hwm, htl, hth, hll, hlh, tvl, tvh, tv, nic, cal, lux, ts, tsr, du, pdm,
    rep, ni, nil, nih, tbl⟩
  cases tbl <;> simp only [pollTime] <;> repeat' split
  all_goals rfl

lemma pollTime_calibration_en (nl : NvsLight) (rdm : Bool) (pd : Nat) :
    (pollTime nl rdm pd).calibration_en = nl.calibration_en := by
  rcases nl with ⟨cfg, hw, hwm, htl, hth, hll, hlh, tvl, tvh, tv, nic, cal, lux, ts, tsr, du, pdm,
    rep, ni, nil, nih, tbl⟩
  cases tbl <;> simp only [pollTime] <;> repeat' split
  all_goals rfl

lemma rateLimit_fst_true (nl : NvsLight) (h : ¬ nl.report < nl.cfg.report_n) :
    rateLimit nl = (true, 0) := by
  simp only [rateLimit, if_neg h]

lemma rateLimit_pass (nl : NvsLight)
    (hd : nl.delay_us * 1000 < U32)
    (hge : ((nl.delay_us * 1000 : Nat) : Int) ≤ nl.timestamp - nl.timestamp_report)
    (hb : nl.timestamp - nl.timestamp_report < 9223372036854775808) :
    rateLimit nl = (true, 0) := by
  simp only [rateLimit]
  split
  · rw [swrap64_eq _ (by omega) hb, Nat.mod_eq_of_lt hd, if_neg (by omega)]
  · rfl

lemma calOverride_report_full (nl : NvsLight) (h : nl.report = nl.cfg.report_n) :
    (calOverride nl).report = nl.cfg.report_n := by
  rw [calOverride_eq]
  split <;> simp [h]

lemma reportTrigger_report_full (nl : NvsLight) (h : nl.report = nl.cfg.report_n) :
    (reportTrigger nl).report = nl.cfg.report_n := by
  rw [reportTrigger_eq]
  dsimp only
  split_ifs <;> simp [h]

/-- The read composition restated through the wiring helpers. -/
lemma nvs_light_read_decomp (nl : NvsLight) :
    nvs_light_read nl =
      ⟨readE nl,
       if (readE nl).report ≠ 0 ∨ (readE nl).calibration_en = true then RET_POLL_NEXT
       else (readDR nl).2,
       (readRP nl).2.2⟩ := rfl

/-- When the report counter is full and `report_n` is nonzero, a read
invokes the report handler: the rate-limit gate is skipped and the
trigger step cannot lower the counter. -/
lemma read_reports (nl : NvsLight) (h1 : nl.report = nl.cfg.report_n)
    (h2 : nl.cfg.report_n ≠ 0) :
    (nvs_light_read nl).reported ≠ none := by
  simp only [nvs_light_read]
  rw [rateLimit_fst_true (calOverride nl)
      (by rw [calOverride_report_full nl h1, calOverride_eq]; simp)]
  apply reportPhase_reported_some
  · rw [reportTrigger_report_full]
    · simp [limitFlags_eq, threshValidBoth_eq, threshValidHi_fst, threshValidLo_fst, calOverride_eq, h2]
    · simp [limitFlags_eq, threshValidBoth_eq, threshValidHi_fst, threshValidLo_fst,
        calOverride_report_full nl h1, calOverride_eq, h1]
  · rfl

/-- In calibration mode a read always takes the report path: the
counter is topped up before the rate-limit check, which is therefore
skipped. -/
lemma read_reports_cal (nl : NvsLight) (hcal : nl.calibration_en = true)
    (hrn : nl.cfg.report_n ≠ 0) :
    (nvs_light_read nl).reported ≠ none := by
  simp only [nvs_light_read]
  rw [rateLimit_fst_true (calOverride nl)
      (by rw [calOverride_eq]; simp [hcal])]
  apply reportPhase_reported_some
  · rw [reportTrigger_report_full]
    · simp [limitFlags_eq, threshValidBoth_eq, threshValidHi_fst, threshValidLo_fst,
        calOverride_eq, hrn]
    · simp [limitFlags_eq, threshValidBoth_eq, threshValidHi_fst, threshValidLo_fst,
        calOverride_eq, hcal]
  · rfl

/-- The calibration flag is never written by `nvs_light_read`, so the
calibration-mode hypothesis of the C6 theorem is an invariant of the
whole post-enable call sequence. -/
lemma read_calibration_en (nl : NvsLight) :
    (nvs_light_read nl).st.calibration_en = nl.calibration_en := by
  rw [nvs_light_read_decomp]
  dsimp only
  simp [readE, readDR, readRP, readD, readC, readB, readTH, readTL, readA,
    pollTime_calibration_en, dynRes_fst_calibration_en, reportPhase_fst_calibration_en,
    reportTrigger_eq, limitFlags_eq, threshValidBoth_eq, threshValidHi_fst, threshValidLo_fst,
    calOverride_eq]

/-- The report count `report_n` is never written by `nvs_light_read`
(the dynamic-resolution step rewrites other configuration fields),
so the normalized `report_n != 0` from `nvs_light_enable` is an
invariant of the whole post-enable call sequence. -/
lemma read_report_n (nl : NvsLight) :
    (nvs_light_read nl).st.cfg.report_n = nl.cfg.report_n := by
  rw [nvs_light_read_decomp]
  dsimp only
  simp [readE, readDR, readRP, readD, readC, readB, readTH, readTL, readA,
    pollTime_cfg, dynRes_fst_report_n, reportPhase_fst_cfg,
    reportTrigger_eq, limitFlags_eq, threshValidBoth_eq, threshValidHi_fst, threshValidLo_fst,
    calOverride_eq]

lemma enable_hw_thresh_lo (nl : NvsLight) :
    (nvs_light_enable nl).hw_thresh_lo = 4294967295 := by
  rcases nl with ⟨cfg, hw, hwm, htl, hth, hll, hlh, tvl, tvh, tv, nic, cal, lux, ts, tsr, du, pdm,
    rep, ni, nil, nih, tbl⟩
  simp only [nvs_light_enable, nvs_light_nld]
  cases tbl <;> split_ifs <;> rfl

lemma enable_hw_thresh_hi (nl : NvsLight) :
    (nvs_light_enable nl).hw_thresh_hi = 0 := by
  rcases nl with ⟨cfg, hw, hwm, htl, hth, hll, hlh, tvl, tvh, tv, nic, cal, lux, ts, tsr, du, pdm,
    rep, ni, nil, nih, tbl⟩
  simp only [nvs_light_enable, nvs_light_nld]
  cases tbl <;> split_ifs <;> rfl

lemma enable_report (nl : NvsLight) :
    (nvs_light_enable nl).report = (nvs_light_enable nl).cfg.report_n := by
  rcases nl with ⟨cfg, hw, hwm, htl, hth, hll, hlh, tvl, tvh, tv, nic, cal, lux, ts, tsr, du, pdm,
    rep, ni, nil, nih, tbl⟩
  simp only [nvs_light_enable, nvs_light_nld]
  cases tbl <;> split_ifs <;> rfl

lemma enable_report_n_ne (nl : NvsLight) :
    (nvs_light_enable nl).cfg.report_n ≠ 0 := by
  rcases nl with ⟨cfg, hw, hwm, htl, hth, hll, hlh, tvl, tvh, tv, nic, cal, lux, ts, tsr, du, pdm,
    rep, ni, nil, nih, tbl⟩
  simp only [nvs_light_enable, nvs_light_nld]
  by_cases h : cfg.report_n = 0 <;> cases tbl <;> simp [h] <;> split_ifs <;> simp [h]

/-- The `scale == (1, 0)` sentinel makes `nvs_light_enable` set
`calibration_en`. -/
lemma enable_calibration_en (nl : NvsLight) (h1 : nl.cfg.scale.ival = 1)
    (h2 : nl.cfg.scale.fval = 0) :
    (nvs_light_enable nl).calibration_en = true := by
  rcases nl with ⟨cfg, hw, hwm, htl, hth, hll, hlh, tvl, tvh, tv, nic, cal, lux, ts, tsr, du, pdm,
    rep, ni, nil, nih, tbl⟩
  simp only [nvs_light_enable, nvs_light_nld]
  cases tbl <;> split_ifs <;> simp_all

lemma rateLimit_setTh (nl : NvsLight) (v : Nat) :
    rateLimit (setTh nl v) = rateLimit nl := rfl

lemma luxCalc_setTh (nl : NvsLight) (v : Nat) :
    luxCalc (setTh nl v) = luxCalc nl := rfl

lemma calOverride_setTh (nl : NvsLight) (v : Nat) :
    calOverride (setTh nl v) = setTh (calOverride nl) v := by
  by_cases h : nl.calibration_en = true <;> simp [calOverride, setTh, h]

lemma threshValidLo_setTh (nl : NvsLight) (v : Nat) :
    threshValidLo (setTh nl v) = (setTh (threshValidLo nl).1 v, (threshValidLo nl).2) := by
  by_cases h : nl.cfg.thresh_lo < nl.hw_mask <;> simp [threshValidLo, setTh, h]

lemma threshValidHi_setTh (nl : NvsLight) (v : Nat) :
    threshValidHi (setTh nl v) = (setTh (threshValidHi nl).1 v, (threshValidHi nl).2) := by
  by_cases h : nl.cfg.thresh_lo < nl.hw_mask <;> simp [threshValidHi, setTh, h]

lemma threshValidBoth_setTh (nl : NvsLight) (v : Nat) :
    threshValidBoth (setTh nl v) = setTh (threshValidBoth nl) v := by
  by_cases h : nl.thresh_valid_lo = true ∧ nl.thresh_valid_hi = true <;>
    simp [threshValidBoth, setTh, h]

lemma limitFlags_setTh (nl : NvsLight) (v : Nat) (tl th : Nat) :
    limitFlags (setTh nl v) tl th = setTh (limitFlags nl tl th) v := by
  rw [limitFlags_eq, limitFlags_eq]
  simp [setTh]

lemma reportTrigger_setTh (nl : NvsLight) (v : Nat) :
    reportTrigger (setTh nl v) = setTh (reportTrigger nl) v := by
  rw [reportTrigger_eq, reportTrigger_eq]
  simp [setTh]

lemma threshCompute_setTh (nl : NvsLight) (v : Nat) (tl th : Nat) :
    threshCompute (setTh nl v) tl th = setTh (threshCompute nl tl th) v := by
  by_cases h1 : (nl.hw : Int) - (tl : Int) < 0 <;>
    by_cases h2 : (nl.hw + th) % U32 > nl.hw_mask <;>
      simp [threshCompute, setTh, h1, h2]

lemma reportPhase_setTh (nl : NvsLight) (v : Nat) (rdm : Bool) (tl th : Nat) :
    reportPhase (setTh nl v) rdm tl th =
      (setTh (reportPhase nl rdm tl th).1 v,
       (reportPhase nl rdm tl th).2.1, (reportPhase nl rdm tl th).2.2) := by
  rcases nl with ⟨cfg, hw, hwm, htl, hth, hll, hlh, tvl, tvh, tv, nic, cal, lx, ts, tsr, du, pdm,
    rep, ni, nil, nih, tbl⟩
  by_cases c1 : rep ≠ 0 ∧ rdm = true <;>
    by_cases c2 : tv = true ∧ rep - 1 = 0 <;>
      by_cases h3 : (hw : Int) - (tl : Int) < 0 <;>
        by_cases h4 : (hw + th) % U32 > hwm <;>
          simp [reportPhase, threshCompute, setTh, c1, c2, h3, h4] <;> try rfl

lemma nvs_light_nld_setTh (nl : NvsLight) (v : Nat) (tbl : Nat → NldEntry) (i : Nat) :
    nvs_light_nld (setTh nl v) tbl i = setTh (nvs_light_nld nl tbl i) v := by
  simp [nvs_light_nld, setTh]

lemma dynRes_setTh (nl : NvsLight) (v : Nat) (ret : Int) :
    dynRes (setTh nl v) ret = (setTh (dynRes nl ret).1 v, (dynRes nl ret).2) := by
  rcases htbl : nl.nld_tbl with _ | tbl
  · simp [dynRes, setTh, htbl]
  · by_cases c1 : nl.hw_limit_hi = true ∧ nl.nld_i < nl.nld_i_hi
    · simp [dynRes, setTh, htbl, c1, nvs_light_nld]
    · by_cases c2 : nl.hw_limit_lo = true ∧ nl.nld_i_lo < nl.nld_i
      · simp [dynRes, setTh, htbl, c1, c2, nvs_light_nld]
      · simp [dynRes, setTh, htbl, c1, c2]

lemma pollTime_setTh (nl : NvsLight) (v : Nat) (rdm : Bool) (pd : Nat) :
    pollTime (setTh nl v) rdm pd = setTh (pollTime nl rdm pd) v := by
  rcases htbl : nl.nld_tbl with _ | tbl
  · by_cases c1 : nl.nld_i_change = true
    · simp [pollTime, setTh, htbl, c1]
    · by_cases c2 : (if rdm = true then nl.delay_us else pd) < nl.cfg.delay_us_min ∨
        nl.calibration_en = true
      · simp [pollTime, setTh, htbl, c1, c2]
      · simp [pollTime, setTh, htbl, c1, c2]
  · by_cases c1 : nl.nld_i_change = true
    · simp [pollTime, setTh, htbl, c1]
    · by_cases c2 : (if rdm = true then nl.delay_us else pd) < nl.cfg.delay_us_min ∨
        nl.calibration_en = true
      · simp [pollTime, setTh, htbl, c1, c2]
      · simp [pollTime, setTh, htbl, c1, c2]

lemma c4_first (t : Int) :
    nvs_light_read (sample c4aSt 50 t) = ⟨c4F 2 t, RET_POLL_NEXT, some (0, t)⟩ := by
  have hA : calOverride (sample c4aSt 50 t) = sample c4aSt 50 t := rfl
  have hRL : rateLimit (sample c4aSt 50 t) = (true, 0) := rfl
  have hTL : threshValidLo (sample c4aSt 50 t) =
      ({ sample c4aSt 50 t with thresh_valid_lo := true }, 5) := rfl
  have hTH : threshValidHi { sample c4aSt 50 t with thresh_valid_lo := true } =
      ({ sample c4aSt 50 t with thresh_valid_lo := true, thresh_valid_hi := true }, 5) := rfl
  have hB : threshValidBoth { sample c4aSt 50 t with thresh_valid_lo := true, thresh_valid_hi := true } = { sample c4aSt 50 t with thresh_valid_lo := true, thresh_valid_hi := true, thresholds_valid := true } := rfl
  have hC : limitFlags { sample c4aSt 50 t with thresh_valid_lo := true, thresh_valid_hi := true, thresholds_valid := true } 5 5 = { sample c4aSt 50 t with thresh_valid_lo := true, thresh_valid_hi := true, thresholds_valid := true } := rfl
  have hD : reportTrigger { sample c4aSt 50 t with thresh_valid_lo := true, thresh_valid_hi := true, thresholds_valid := true } = { sample c4aSt 50 t with thresh_valid_lo := true, thresh_valid_hi := true, thresholds_valid := true } := rfl
  have hRP : reportPhase { sample c4aSt 50 t with thresh_valid_lo := true, thresh_valid_hi := true, thresholds_valid := true } true 5 5 = ({ sample (c4F 2 t) 50 t with poll_delay_ms := 0 }, RET_NO_CHANGE, some (0, t)) := by
    simp only [reportPhase]
    norm_num [sample, c4F, c4aSt, baseSt, baseCfg, luxCalc, nvs_light_interpolate, toS64,
      u32of, swrap, toU64, threshCompute, U32, U64, NVS_SCALE_SIGNIFICANCE, RET_NO_CHANGE]
  have hDR : dynRes { sample (c4F 2 t) 50 t with poll_delay_ms := 0 } RET_NO_CHANGE =
      ({ sample (c4F 2 t) 50 t with poll_delay_ms := 0 }, RET_NO_CHANGE) := rfl
  have hPT : pollTime { sample (c4F 2 t) 50 t with poll_delay_ms := 0 } true 0 =
      sample (c4F 2 t) 50 t := by
    rw [pollTime_no_change _ _ _ rfl]
    norm_num [sample, c4F, baseSt, baseCfg]
  simp only [nvs_light_read]
  rw [hA, hRL]
  dsimp only
  rw [hTL]
  dsimp only
  rw [hTH]
  dsimp only
  rw [hB, hC, hD, hRP]
  dsimp only
  rw [hDR]
  dsimp only
  rw [hPT]
  norm_num [sample, c4F, baseSt, baseCfg, RET_POLL_NEXT, RET_NO_CHANGE]

lemma c4_step2 (tr t : Int) (hbl : -(2 ^ 61) ≤ t - tr) (hbu : t - tr < 2 ^ 61)
    (hg : 10000000 ≤ t - tr) :
    nvs_light_read (sample (c4F 2 tr) 50 t) = ⟨c4F 1 t, RET_POLL_NEXT, some (0, t)⟩ := by
  have hA : calOverride (sample (c4F 2 tr) 50 t) = sample (c4F 2 tr) 50 t := rfl
  have hRL : rateLimit (sample (c4F 2 tr) 50 t) = (true, 0) := by
    apply rateLimit_pass
    · show (10000 * 1000 : Nat) < U32
      decide
    · show ((10000 * 1000 : Nat) : Int) ≤ t - tr
      norm_num
      omega
    · show t - tr < 9223372036854775808
      omega
  have hTL : threshValidLo (sample (c4F 2 tr) 50 t) = (sample (c4F 2 tr) 50 t, 5) := rfl
  have hTH : threshValidHi (sample (c4F 2 tr) 50 t) = (sample (c4F 2 tr) 50 t, 5) := rfl
  have hB : threshValidBoth (sample (c4F 2 tr) 50 t) = sample (c4F 2 tr) 50 t := rfl
  have hC : limitFlags (sample (c4F 2 tr) 50 t) 5 5 = sample (c4F 2 tr) 50 t := rfl
  have hD : reportTrigger (sample (c4F 2 tr) 50 t) = sample (c4F 2 tr) 50 t := rfl
  have hRP : reportPhase (sample (c4F 2 tr) 50 t) true 5 5 =
      (sample (c4F 1 t) 50 t, RET_NO_CHANGE, some (0, t)) := by
    simp only [reportPhase]
    norm_num [sample, c4F, baseSt, baseCfg, luxCalc, nvs_light_interpolate, toS64,
      u32of, swrap, toU64, threshCompute, U32, U64, NVS_SCALE_SIGNIFICANCE, RET_NO_CHANGE]
  have hDR : dynRes (sample (c4F 1 t) 50 t) RET_NO_CHANGE =
      (sample (c4F 1 t) 50 t, RET_NO_CHANGE) := rfl
  have hPT : pollTime (sample (c4F 1 t) 50 t) true 0 = sample (c4F 1 t) 50 t := by
    rw [pollTime_no_change _ _ _ rfl]
    norm_num [sample, c4F, baseSt, baseCfg]
  simp only [nvs_light_read]
  rw [hA, hRL]
  dsimp only
  rw [hTL]
  dsimp only
  rw [hTH]
  dsimp only
  rw [hB, hC, hD, hRP]
  dsimp only
  rw [hDR]
  dsimp only
  rw [hPT]
  norm_num [sample, c4F, baseSt, baseCfg, RET_POLL_NEXT, RET_NO_CHANGE]

lemma c4_step1 (tr t : Int) (hbl : -(2 ^ 61) ≤ t - tr) (hbu : t - tr < 2 ^ 61)
    (hg : 10000000 ≤ t - tr) :
    nvs_light_read (sample (c4F 1 tr) 50 t) = ⟨c4F 0 t, RET_HW_UPDATE, some (0, t)⟩ := by
  have hA : calOverride (sample (c4F 1 tr) 50 t) = sample (c4F 1 tr) 50 t := rfl
  have hRL : rateLimit (sample (c4F 1 tr) 50 t) = (true, 0) := by
    apply rateLimit_pass
    · show (10000 * 1000 : Nat) < U32
      decide
    · show ((10000 * 1000 : Nat) : Int) ≤ t - tr
      norm_num
      omega
    · show t - tr < 9223372036854775808
      omega
  have hTL : threshValidLo (sample (c4F 1 tr) 50 t) = (sample (c4F 1 tr) 50 t, 5) := rfl
  have hTH : threshValidHi (sample (c4F 1 tr) 50 t) = (sample (c4F 1 tr) 50 t, 5) := rfl
  have hB : threshValidBoth (sample (c4F 1 tr) 50 t) = sample (c4F 1 tr) 50 t := rfl
  have hC : limitFlags (sample (c4F 1 tr) 50 t) 5 5 = sample (c4F 1 tr) 50 t := rfl
  have hD : reportTrigger (sample (c4F 1 tr) 50 t) = sample (c4F 1 tr) 50 t := rfl
  have hRP : reportPhase (sample (c4F 1 tr) 50 t) true 5 5 =
      (sample (c4F 0 t) 50 t, RET_HW_UPDATE, some (0, t)) := by
    simp only [reportPhase]
    norm_num [sample, c4F, baseSt, baseCfg, luxCalc, nvs_light_interpolate, toS64,
      u32of, swrap, toU64, threshCompute, U32, U64, NVS_SCALE_SIGNIFICANCE, RET_HW_UPDATE]
    decide
  have hDR : dynRes (sample (c4F 0 t) 50 t) RET_HW_UPDATE =
      (sample (c4F 0 t) 50 t, RET_HW_UPDATE) := rfl
  have hPT : pollTime (sample (c4F 0 t) 50 t) true 0 = sample (c4F 0 t) 50 t := by
    rw [pollTime_no_change _ _ _ rfl]
    norm_num [sample, c4F, baseSt, baseCfg]
  simp only [nvs_light_read]
  rw [hA, hRL]
  dsimp only
  rw [hTL]
  dsimp only
  rw [hTH]
  dsimp only
  rw [hB, hC, hD, hRP]
  dsimp only
  rw [hDR]
  dsimp only
  rw [hPT]
  norm_num [sample, c4F, baseSt, baseCfg, RET_POLL_NEXT, RET_NO_CHANGE, RET_HW_UPDATE]

lemma c4_step0 (tr t : Int) (hbl : -(2 ^ 61) ≤ t - tr) (hbu : t - tr < 2 ^ 61)
    (hg : 10000000 ≤ t - tr) :
    nvs_light_read (sample (c4F 0 tr) 50 t) =
      ⟨sample (c4F 0 tr) 50 t, RET_NO_CHANGE, none⟩ := by
  have hA : calOverride (sample (c4F 0 tr) 50 t) = sample (c4F 0 tr) 50 t := rfl
  have hRL : rateLimit (sample (c4F 0 tr) 50 t) = (true, 0) := by
    apply rateLimit_pass
    · show (10000 * 1000 : Nat) < U32
      decide
    · show ((10000 * 1000 : Nat) : Int) ≤ t - tr
      norm_num
      omega
    · show t - tr < 9223372036854775808
      omega
  have hTL : threshValidLo (sample (c4F 0 tr) 50 t) = (sample (c4F 0 tr) 50 t, 5) := rfl
  have hTH : threshValidHi (sample (c4F 0 tr) 50 t) = (sample (c4F 0 tr) 50 t, 5) := rfl
  have hB : threshValidBoth (sample (c4F 0 tr) 50 t) = sample (c4F 0 tr) 50 t := rfl
  have hC : limitFlags (sample (c4F 0 tr) 50 t) 5 5 = sample (c4F 0 tr) 50 t := rfl
  have hD : reportTrigger (sample (c4F 0 tr) 50 t) = sample (c4F 0 tr) 50 t := rfl
  have hRP : reportPhase (sample (c4F 0 tr) 50 t) true 5 5 =
      (sample (c4F 0 tr) 50 t, RET_NO_CHANGE, none) := by
    simp only [reportPhase]
    norm_num [sample, c4F, baseSt, baseCfg, RET_NO_CHANGE]
  have hDR : dynRes (sample (c4F 0 tr) 50 t) RET_NO_CHANGE =
      (sample (c4F 0 tr) 50 t, RET_NO_CHANGE) := rfl
  have hPT : pollTime (sample (c4F 0 tr) 50 t) true 0 = sample (c4F 0 tr) 50 t := by
    rw [pollTime_no_change _ _ _ rfl]
    norm_num [sample, c4F, baseSt, baseCfg]
  simp only [nvs_light_read]
  rw [hA, hRL]
  dsimp only
  rw [hTL]
  dsimp only
  rw [hTH]
  dsimp only
  rw [hB, hC, hD, hRP]
  dsimp only
  rw [hDR]
  dsimp only
  rw [hPT]
  norm_num [sample, c4F, baseSt, baseCfg, RET_POLL_NEXT, RET_NO_CHANGE]

/-- C1, behaviour at the failing input: although
`cfg.thresh_hi = 1 < hw_mask`, the call computes
`thresh_valid_hi = false` (and hence `thresholds_valid = false`),
because source line 192 reads `thresh_hi = nl->cfg->thresh_lo;` and
`cfg->thresh_lo` here is not smaller than `hw_mask`. -/
theorem c1_thresh_valid_hi_bug :
    c1st.cfg.thresh_hi < c1st.hw_mask ∧
    (nvs_light_read c1st).st.thresh_valid_hi = false ∧
    (nvs_light_read c1st).st.thresholds_valid = false := by decide

/-- C2, behaviour at the failing input: the burst ends, thresholds are
recomputed and the disposition is `RET_HW_UPDATE`, and the low
threshold is `hw - cfg.thresh_lo = 45` as the claim states, but the
high threshold becomes `hw + cfg.thresh_lo = 55`, not
`hw + cfg.thresh_hi = 57` (which would not have been clamped:
`57 <= hw_mask`), again because of the `thresh_hi` copy-paste at
source line 192. -/
theorem c2_hw_thresh_hi_bug :
    (nvs_light_read c2st).ret = RET_HW_UPDATE ∧
    (nvs_light_read c2st).st.hw_thresh_lo = c2st.hw - c2st.cfg.thresh_lo ∧
    c2st.hw + c2st.cfg.thresh_hi ≤ c2st.hw_mask ∧
    (nvs_light_read c2st).st.hw_thresh_hi ≠ c2st.hw + c2st.cfg.thresh_hi ∧
    (nvs_light_read c2st).st.hw_thresh_hi = c2st.hw + c2st.cfg.thresh_lo := by decide

/-- C3, behaviour at the failing input: the report path is taken
(the handler is invoked), `resolution.ival` is nonzero and
`scale.fval` is zero, so the division
`NVS_SCALE_SIGNIFICANCE / nl->cfg->scale.fval` at source line 250 is
executed with a zero divisor: the divisions of the core are not all
defined. -/
theorem c3_div_by_zero_on_calibration :
    c3st.cfg.scale.ival = 1 ∧ c3st.cfg.scale.fval = 0 ∧
    c3st.cfg.resolution.ival ≠ 0 ∧
    (nvs_light_read c3st).reported ≠ none ∧
    ¬ nvs_light_read_divs_defined c3st := by decide

/-- C4, as stated, is false on the code: starting from the state
produced by `nvs_light_enable` with `report_n` = 3, valid thresholds,
a constant mid-range raw value and the rate-limit gate satisfied on
every call, the 4th call still invokes the report handler (as does
every later one).  The post-enable sentinel window `[all-ones, 0]`
contains no raw value, every call therefore re-triggers a full burst,
and the counter never reaches 0 (it stays at `report_n - 1 = 2` after
each call), so the burst never exhausts and the thresholds are never
reprogrammed. -/
theorem c4_counterexample :
    c4s1.reported ≠ none ∧ c4s2.reported ≠ none ∧ c4s3.reported ≠ none ∧
    c4s4.reported ≠ none ∧
    c4s4.st.thresholds_valid = true ∧ c4s4.st.hw_limit_lo = false ∧
    c4s4.st.hw_limit_hi = false ∧ c4s4.st.report = 2 ∧
    c4s4.st.hw_thresh_lo = 4294967295 ∧ c4s4.st.hw_thresh_hi = 0 := by decide

/-- C4 (amended): the post-enable sentinel window contains no raw
value, so starting from `nvs_light_enable` the burst never exhausts
(see the counterexample theorem); starting instead from a state whose
programmed threshold window contains the constant raw value, with
`report = report_n = 3`, valid thresholds, no resolution table, and
the rate-limit gate satisfied on every call, exactly the first 3 calls
invoke the report handler and the 4th does not. -/
theorem c4_burst_exhaustion_amended (t1 t2 t3 t4 : Int)
    (hb12l : -(2 ^ 61) ≤ t2 - t1) (hb12u : t2 - t1 < 2 ^ 61) (g12 : 10000000 ≤ t2 - t1)
    (hb23l : -(2 ^ 61) ≤ t3 - t2) (hb23u : t3 - t2 < 2 ^ 61) (g23 : 10000000 ≤ t3 - t2)
    (hb34l : -(2 ^ 61) ≤ t4 - t3) (hb34u : t4 - t3 < 2 ^ 61) (g34 : 10000000 ≤ t4 - t3) :
    (nvs_light_read (sample c4aSt 50 t1)).reported ≠ none ∧
    (nvs_light_read (sample (nvs_light_read (sample c4aSt 50 t1)).st 50 t2)).reported ≠ none ∧
    (nvs_light_read (sample (nvs_light_read (sample (nvs_light_read
      (sample c4aSt 50 t1)).st 50 t2)).st 50 t3)).reported ≠ none ∧
    (nvs_light_read (sample (nvs_light_read (sample (nvs_light_read (sample (nvs_light_read
      (sample c4aSt 50 t1)).st 50 t2)).st 50 t3)).st 50 t4)).reported = none := by
  rw [c4_first t1]
  dsimp only
  rw [c4_step2 t1 t2 hb12l hb12u g12]
  dsimp only
  rw [c4_step1 t2 t3 hb23l hb23u g23]
  dsimp only
  rw [show sample (c4F 0 t3) 50 t4 = sample (c4F 0 t3) 50 t4 from rfl,
    c4_step0 t3 t4 hb34l hb34u g34]
  simp

/-- Witness for the amended C4 at concrete call times 0, 10 ms, 20 ms,
30 ms. -/
theorem c4_burst_exhaustion_amended_witness :
    (nvs_light_read (sample c4aSt 50 0)).reported ≠ none ∧
    (nvs_light_read (sample (nvs_light_read (sample c4aSt 50 0)).st 50 10000000)).reported ≠ none ∧
    (nvs_light_read (sample (nvs_light_read (sample (nvs_light_read
      (sample c4aSt 50 0)).st 50 10000000)).st 50 20000000)).reported ≠ none ∧
    (nvs_light_read (sample (nvs_light_read (sample (nvs_light_read (sample (nvs_light_read
      (sample c4aSt 50 0)).st 50 10000000)).st 50 20000000)).st 50 30000000)).reported = none :=
  c4_burst_exhaustion_amended 0 10000000 20000000 30000000
    (by decide) (by decide) (by decide) (by decide) (by decide) (by decide)
    (by decide) (by decide) (by decide)

/-- C5, behaviour at the failing input: the handler is indeed not
invoked, but the remaining-wait poll delay (5 ms) is clamped up to
`delay_us_min` = 50 ms, so the returned poll delay (50 ms) exceeds the
configured period `delay_us` = 10 ms. -/
theorem c5_counterexample :
    c5st.calibration_en = false ∧
    c5st.report < c5st.cfg.report_n ∧
    0 ≤ c5st.timestamp - c5st.timestamp_report ∧
    c5st.timestamp - c5st.timestamp_report < (c5st.delay_us : Int) * 1000 ∧
    (nvs_light_read c5st).reported = none ∧
    (nvs_light_read c5st).st.poll_delay_ms * 1000 > c5st.delay_us := by decide

/-- C5 (amended): with calibration off, a partially consumed burst, a
sample arriving before the requested period has elapsed (monotonic
timestamps, `delay_us * 1000` representable in u32), no
dynamic-resolution table, and a configured minimum delay not exceeding
the requested period, the call does not invoke the report handler and
the returned poll delay is at most the requested period. -/
theorem c5_rate_limit_amended (nl : NvsLight)
    (hcal : nl.calibration_en = false)
    (hrep : nl.report < nl.cfg.report_n)
    (htbl : nl.nld_tbl = none)
    (h0 : 0 ≤ nl.timestamp - nl.timestamp_report)
    (hlt : nl.timestamp - nl.timestamp_report < (nl.delay_us : Int) * 1000)
    (hrange : nl.delay_us * 1000 < U32)
    (hmin : nl.cfg.delay_us_min ≤ nl.delay_us) :
    (nvs_light_read nl).reported = none ∧
    (nvs_light_read nl).st.poll_delay_ms ≤ nl.delay_us / 1000 := by
  have hrange' : nl.delay_us * 1000 < 4294967296 := hrange
  have hA : readA nl = nl := by
    rw [readA, calOverride_eq, if_neg (by simp [hcal])]
  have hrl0 : readRL nl =
      (false, ((((nl.delay_us * 1000 : Nat) : Int) -
        (nl.timestamp - nl.timestamp_report)).toNat) / 1000 % U32) := by
    rw [readRL, hA]
    simp only [rateLimit]
    rw [if_pos hrep, swrap64_eq _ (by omega) (by omega), Nat.mod_eq_of_lt hrange,
      if_pos (by push_cast; omega), swrap64_eq _ (by push_cast; omega) (by push_cast; omega),
      toU64_eq _ (by push_cast; omega) (by push_cast; omega)]
  have hqle : ((((nl.delay_us * 1000 : Nat) : Int) -
      (nl.timestamp - nl.timestamp_report)).toNat) / 1000 % U32 ≤ nl.delay_us := by
    have h1 : ((((nl.delay_us * 1000 : Nat) : Int) -
        (nl.timestamp - nl.timestamp_report)).toNat) / 1000 ≤ nl.delay_us := by
      omega
    exact le_trans (Nat.mod_le _ _) h1
  have hgate : ¬((readD nl).report ≠ 0 ∧ (readRL nl).1 = true) := by
    rw [hrl0]
    simp
  have hrp : readRP nl = (readD nl, RET_NO_CHANGE, none) := by
    rw [readRP]
    exact reportPhase_none _ _ _ _ hgate
  have hDtbl : (readD nl).nld_tbl = none := by
    simp [readD, readC, readB, readTH, readTL, hA, reportTrigger_eq, limitFlags_eq,
      threshValidBoth_eq, threshValidHi_fst, threshValidLo_fst, htbl]
  have hDcal : (readD nl).calibration_en = false := by
    simp [readD, readC, readB, readTH, readTL, hA, reportTrigger_eq, limitFlags_eq,
      threshValidBoth_eq, threshValidHi_fst, threshValidLo_fst, hcal]
  have hDcfg : (readD nl).cfg = nl.cfg := by
    simp [readD, readC, readB, readTH, readTL, hA, reportTrigger_eq, limitFlags_eq,
      threshValidBoth_eq, threshValidHi_fst, threshValidLo_fst]
  have hdr : readDR nl = ({ readD nl with nld_i_change := false }, RET_NO_CHANGE) := by
    rw [readDR, hrp]
    exact dynRes_none _ _ hDtbl
  constructor
  · rw [nvs_light_read_decomp]
    dsimp only
    rw [hrp]
  · rw [nvs_light_read_decomp]
    dsimp only
    rw [readE, hdr, hrl0]
    dsimp only
    rw [pollTime_no_change_false _ _ (by rfl)]
    dsimp only
    simp only [hDcfg, hDcal, Bool.false_eq_true, or_false]
    split_ifs with hc
    · exact Nat.div_le_div_right hmin
    · exact Nat.div_le_div_right hqle

/-- Witness for the amended C5 at a concrete state. -/
theorem c5_rate_limit_amended_witness :
    (nvs_light_read c5wSt).reported = none ∧
    (nvs_light_read c5wSt).st.poll_delay_ms ≤ c5wSt.delay_us / 1000 :=
  c5_rate_limit_amended c5wSt rfl (by decide) rfl (by decide) (by decide) (by decide) (by decide)

/-- C6: with the `scale == (1, 0)` calibration sentinel in effect
(`calibration_en`, as set by `nvs_light_enable`, with the normalized
`report_n != 0` — both preserved by every read), every `nvs_light_read`
call invokes the report handler regardless of elapsed time and
threshold state, and the returned poll delay is the configured minimum
`delay_us_min` (in ms, with respect to the configuration active after
the call).  The table hypothesis only states that the per-entry
minimum delays are representable (`delay_min_ms * 1000` fits in u32). -/
theorem c6_calibration_mode (nl : NvsLight) (hcal : nl.calibration_en = true)
    (hrn : nl.cfg.report_n ≠ 0)
    (htbl : ∀ tbl, nl.nld_tbl = some tbl → ∀ i, (tbl i).delay_min_ms * 1000 < U32) :
    (nvs_light_read nl).reported ≠ none ∧
    (nvs_light_read nl).st.poll_delay_ms = (nvs_light_read nl).st.cfg.delay_us_min / 1000 := by
  refine ⟨read_reports_cal nl hcal hrn, ?_⟩
  have hcal' : (readRP nl).1.calibration_en = true := by
    simp [readRP, readD, readC, readB, readTH, readTL, readA, reportPhase_fst_calibration_en,
      reportTrigger_eq, limitFlags_eq, threshValidBoth_eq, threshValidHi_fst, threshValidLo_fst,
      calOverride_eq, hcal]
  have htbleq : (readRP nl).1.nld_tbl = nl.nld_tbl := by
    simp [readRP, readD, readC, readB, readTH, readTL, readA, reportPhase_fst_nld_tbl,
      reportTrigger_eq, limitFlags_eq, threshValidBoth_eq, threshValidHi_fst, threshValidLo_fst,
      calOverride_eq]
  rw [nvs_light_read_decomp]
  dsimp only
  simp only [readE, readDR]
  generalize hz : (readRP nl).2.1 = z
  generalize hp : (readRP nl).1 = p at hcal' htbleq
  rcases hnl : nl.nld_tbl with _ | tbl
  · rw [hnl] at htbleq
    simp [dynRes, htbleq, pollTime, hcal', pollTime_cfg]
  · rw [hnl] at htbleq
    by_cases c1 : p.hw_limit_hi = true ∧ p.nld_i < p.nld_i_hi
    · simp only [dynRes, htbleq, c1]
      simp [nvs_light_nld, pollTime,
        Nat.mod_eq_of_lt (htbl tbl hnl (p.nld_i + 1)), Nat.mul_div_cancel]
    · by_cases c2 : p.hw_limit_lo = true ∧ p.nld_i_lo < p.nld_i
      · simp only [dynRes, htbleq, c1, c2]
        simp [nvs_light_nld, pollTime,
          Nat.mod_eq_of_lt (htbl tbl hnl (p.nld_i - 1)), Nat.mul_div_cancel]
      · simp only [dynRes, htbleq, c1, c2]
        simp [pollTime, hcal', pollTime_cfg]

/-- Witness for C6 at a concrete calibration-mode state. -/
theorem c6_calibration_mode_witness :
    (nvs_light_read c6wSt).reported ≠ none ∧
    (nvs_light_read c6wSt).st.poll_delay_ms = (nvs_light_read c6wSt).st.cfg.delay_us_min / 1000 :=
  c6_calibration_mode c6wSt rfl (by decide) (fun tbl h => nomatch h)

/-- C7: with a dynamic-resolution table configured, a high-saturated
sample below the top index moves the index up by exactly one with the
Poll-Next disposition; otherwise a low-saturated sample above the
bottom index moves it down by exactly one, also with Poll-Next; in the
remaining cases (including saturation at the respective bounds) the
index does not change.  High saturation takes precedence and at most
one step is taken per call. -/
theorem c7_auto_ranging (nl : NvsLight) (tbl : Nat → NldEntry)
    (htbl : nl.nld_tbl = some tbl) :
    ((nvs_light_read nl).st.hw_limit_hi = true ∧ nl.nld_i < nl.nld_i_hi →
      (nvs_light_read nl).st.nld_i = nl.nld_i + 1 ∧
      (nvs_light_read nl).ret = RET_POLL_NEXT) ∧
    (¬((nvs_light_read nl).st.hw_limit_hi = true ∧ nl.nld_i < nl.nld_i_hi) →
      ((nvs_light_read nl).st.hw_limit_lo = true ∧ nl.nld_i_lo < nl.nld_i →
        (nvs_light_read nl).st.nld_i = nl.nld_i - 1 ∧
        (nvs_light_read nl).ret = RET_POLL_NEXT)) ∧
    (¬((nvs_light_read nl).st.hw_limit_hi = true ∧ nl.nld_i < nl.nld_i_hi) →
      ¬((nvs_light_read nl).st.hw_limit_lo = true ∧ nl.nld_i_lo < nl.nld_i) →
        (nvs_light_read nl).st.nld_i = nl.nld_i) := by
  have htbl' : (readRP nl).1.nld_tbl = some tbl := by
    simp [readRP, readD, readC, readB, readTH, readTL, readA, reportPhase_fst_nld_tbl,
      reportTrigger_eq, limitFlags_eq, threshValidBoth_eq, threshValidHi_fst, threshValidLo_fst,
      calOverride_eq, htbl]
  have hni : (readRP nl).1.nld_i = nl.nld_i := by
    simp [readRP, readD, readC, readB, readTH, readTL, readA, reportPhase_fst_nld_i,
      reportTrigger_eq, limitFlags_eq, threshValidBoth_eq, threshValidHi_fst, threshValidLo_fst,
      calOverride_eq]
  have hlo : (readRP nl).1.nld_i_lo = nl.nld_i_lo := by
    simp [readRP, readD, readC, readB, readTH, readTL, readA, reportPhase_fst_nld_i_lo,
      reportTrigger_eq, limitFlags_eq, threshValidBoth_eq, threshValidHi_fst, threshValidLo_fst,
      calOverride_eq]
  have hhi : (readRP nl).1.nld_i_hi = nl.nld_i_hi := by
    simp [readRP, readD, readC, readB, readTH, readTL, readA, reportPhase_fst_nld_i_hi,
      reportTrigger_eq, limitFlags_eq, threshValidBoth_eq, threshValidHi_fst, threshValidLo_fst,
      calOverride_eq]
  rw [nvs_light_read_decomp]
  dsimp only
  rw [← hni, ← hlo, ← hhi]
  simp only [readE, readDR]
  generalize hz : (readRP nl).2.1 = z
  generalize hp : (readRP nl).1 = p at htbl' hni hlo hhi
  by_cases c1 : p.hw_limit_hi = true ∧ p.nld_i < p.nld_i_hi
  · simp [dynRes, nvs_light_nld, htbl', c1, pollTime_hw_limit_hi, pollTime_hw_limit_lo,
      pollTime_nld_i, RET_POLL_NEXT]
  · by_cases c2 : p.hw_limit_lo = true ∧ p.nld_i_lo < p.nld_i
    · simp [dynRes, nvs_light_nld, htbl', c1, c2, pollTime_hw_limit_hi, pollTime_hw_limit_lo,
        pollTime_nld_i, RET_POLL_NEXT]
    · simp [dynRes, nvs_light_nld, htbl', c1, c2, pollTime_hw_limit_hi, pollTime_hw_limit_lo,
        pollTime_nld_i, RET_POLL_NEXT]

/-- Witness for C7 at a concrete saturated-high state with a table. -/
theorem c7_auto_ranging_witness :
    ((nvs_light_read c7wSt).st.hw_limit_hi = true ∧ c7wSt.nld_i < c7wSt.nld_i_hi →
      (nvs_light_read c7wSt).st.nld_i = c7wSt.nld_i + 1 ∧
      (nvs_light_read c7wSt).ret = RET_POLL_NEXT) ∧
    (¬((nvs_light_read c7wSt).st.hw_limit_hi = true ∧ c7wSt.nld_i < c7wSt.nld_i_hi) →
      ((nvs_light_read c7wSt).st.hw_limit_lo = true ∧ c7wSt.nld_i_lo < c7wSt.nld_i →
        (nvs_light_read c7wSt).st.nld_i = c7wSt.nld_i - 1 ∧
        (nvs_light_read c7wSt).ret = RET_POLL_NEXT)) ∧
    (¬((nvs_light_read c7wSt).st.hw_limit_hi = true ∧ c7wSt.nld_i < c7wSt.nld_i_hi) →
      ¬((nvs_light_read c7wSt).st.hw_limit_lo = true ∧ c7wSt.nld_i_lo < c7wSt.nld_i) →
        (nvs_light_read c7wSt).st.nld_i = c7wSt.nld_i) :=
  c7_auto_ranging c7wSt c7wTbl rfl

/-- C8: immediately after `nvs_light_enable`, for every raw value and
timestamp written by the caller, the thresholds are the fully open
sentinels (`hw_thresh_lo` all-ones, `hw_thresh_hi` zero), the report
counter equals `report_n`, and the first `nvs_light_read` call invokes
the report handler. -/
theorem c8_first_sample_reports (nl : NvsLight) (hw : Nat) (ts : Int) :
    (sample (nvs_light_enable nl) hw ts).hw_thresh_lo = 4294967295 ∧
    (sample (nvs_light_enable nl) hw ts).hw_thresh_hi = 0 ∧
    (sample (nvs_light_enable nl) hw ts).report =
      (sample (nvs_light_enable nl) hw ts).cfg.report_n ∧
    (nvs_light_read (sample (nvs_light_enable nl) hw ts)).reported ≠ none := by
  refine ⟨?_, ?_, ?_, ?_⟩
  · simp [sample, enable_hw_thresh_lo]
  · simp [sample, enable_hw_thresh_hi]
  · simp [sample, enable_report]
  · exact read_reports _ (by simp [sample, enable_report]) (by simp [sample, enable_report_n_ne])

/-- C9 counterexample: with `x3 == x1`, the query `x2 = 2^32` is not
returned unchanged; the C cast to `unsigned int` truncates it to 0. -/
theorem c9_counterexample :
    ((nvs_light_interpolate 0 4294967296 0 0 0 : Nat) : Int) ≠ (4294967296 : Int) := by decide

/-- C9 amended: whenever `x3 == x1`, `nvs_light_interpolate` returns
`x2` truncated to `unsigned int` (so `x2` itself exactly when
`0 <= x2 < 2^32`, not over the full 64-bit signed domain). -/
theorem c9_identity_mod_u32 (x1 x2 x3 y1 y3 : Int) (h : x3 = x1) :
    nvs_light_interpolate x1 x2 x3 y1 y3 = u32of x2 := by
  subst h
  simp [nvs_light_interpolate]

/-- Witness for the amended C9 at a concrete input. -/
theorem c9_identity_mod_u32_witness :
    nvs_light_interpolate 7 42 7 1 2 = u32of 42 :=
  c9_identity_mod_u32 7 42 7 1 2 rfl

/-- C10: the whole observable behaviour of `nvs_light_read` — final
state, returned disposition, and the value passed to the report
handler — is independent of the configured high threshold
`cfg->thresh_hi` (source line 192 reads `cfg->thresh_lo` instead, and
no other line reads `cfg->thresh_hi`): running on a state whose
`thresh_hi` has been overwritten yields the same result with the same
overwrite carried through. -/
theorem c10_thresh_hi_independence (nl : NvsLight) (v : Nat) :
    nvs_light_read (setTh nl v) =
      ⟨setTh (nvs_light_read nl).st v, (nvs_light_read nl).ret,
       (nvs_light_read nl).reported⟩ := by
  rw [nvs_light_read_decomp, nvs_light_read_decomp]
  have hA : readA (setTh nl v) = setTh (readA nl) v := calOverride_setTh nl v
  have hRL : readRL (setTh nl v) = readRL nl := by
    rw [readRL, readRL, hA, rateLimit_setTh]
  have hTL : readTL (setTh nl v) = (setTh (readTL nl).1 v, (readTL nl).2) := by
    rw [readTL, readTL, hA, threshValidLo_setTh]
  have hTH : readTH (setTh nl v) = (setTh (readTH nl).1 v, (readTH nl).2) := by
    rw [readTH, readTH, hTL]
    exact threshValidHi_setTh (readTL nl).1 v
  have hB : readB (setTh nl v) = setTh (readB nl) v := by
    rw [readB, readB, hTH]
    exact threshValidBoth_setTh (readTH nl).1 v
  have hC : readC (setTh nl v) = setTh (readC nl) v := by
    rw [readC, readC, hB, hTL, hTH]
    exact limitFlags_setTh (readB nl) v (readTL nl).2 (readTH nl).2
  have hD : readD (setTh nl v) = setTh (readD nl) v := by
    rw [readD, readD, hC]
    exact reportTrigger_setTh (readC nl) v
  have hRP : readRP (setTh nl v) =
      (setTh (readRP nl).1 v, (readRP nl).2.1, (readRP nl).2.2) := by
    rw [readRP, readRP, hD, hRL, hTL, hTH]
    exact reportPhase_setTh (readD nl) v (readRL nl).1 (readTL nl).2 (readTH nl).2
  have hDR : readDR (setTh nl v) = (setTh (readDR nl).1 v, (readDR nl).2) := by
    rw [readDR, readDR, hRP]
    exact dynRes_setTh (readRP nl).1 v (readRP nl).2.1
  have hE : readE (setTh nl v) = setTh (readE nl) v := by
    rw [readE, readE, hDR, hRL]
    exact pollTime_setTh (readDR nl).1 v (readRL nl).1 (readRL nl).2
  rw [hE, hDR, hRP]
  simp [setTh]

end Nvs
